import Mathlib

/-!
Verification of the sanitization engine and metrics calculator of the
"differential-codebase-privacy" repository.

The non-UI logic of the repository consists of
* `transformCode` in `src/App.tsx` (an ordered pipeline of JavaScript
  `String.replace` calls with regular expressions), and
* `calculateSecurityMetrics` in `src/App.tsx` (regex match counts and
  rational arithmetic over the original/synthetic pair), and
* a second, independent `transformCode` in `src/components/CodeDiffViewer.tsx`.

To embed these faithfully we first build an executable model of the exact
JavaScript regular-expression constructs the source uses: character classes,
concatenation, alternation (leftmost priority), greedy and lazy repetition,
word boundaries, negative lookahead and capture groups, together with the
semantics of `String.replace(re, tpl)` with the `g` flag (matching always
happens on the original string; replacement text is never rescanned) and of
`String.match(re)` match counting.

Strings are modelled as `List Char`.  The matcher is written in
continuation-passing style; a fuel argument (strictly larger than any need
of the concrete regexes below) makes every function structurally recursive
and hence directly computable by the kernel.
-/

namespace DCP

/-- ASCII word character, JavaScript `\w` = `[A-Za-z0-9_]`. -/
def isWordChar (c : Char) : Bool :=
  let n := c.toNat
  (Nat.ble 97 n && Nat.ble n 122) || (Nat.ble 65 n && Nat.ble n 90) ||
    (Nat.ble 48 n && Nat.ble n 57) || Nat.beq n 95

/-- A character class: code-point ranges plus individual characters,
optionally negated (as in `[^"]`). -/
structure CC where
  negated : Bool
  ranges : List (Nat × Nat)
  singles : List Char
deriving Repr

def CC.test (cc : CC) (c : Char) : Bool :=
  let n := c.toNat
  let hit := cc.ranges.any (fun p => Nat.ble p.1 n && Nat.ble n p.2) ||
    cc.singles.any (fun d => d == c)
  if cc.negated then !hit else hit

def ccWord : CC := ⟨false, [(97, 122), (65, 90), (48, 57)], ['_']⟩
def ccDigit : CC := ⟨false, [(48, 57)], []⟩
/-- JavaScript `\s`: ASCII whitespace together with the Unicode space
characters (NBSP, Ogham space, the U+2000 range, line/paragraph
separators, narrow NBSP, medium mathematical space, ideographic space and
the BOM). -/
def ccSpace : CC :=
  ⟨false, [(9, 13), (8192, 8202)],
   [' ', '\u00A0', '\u1680', '\u2028', '\u2029', '\u202F', '\u205F',
    '\u3000', '\uFEFF']⟩
/-- JavaScript `.` without the `s` flag: anything but a line terminator
(LF, CR, and the U+2028/U+2029 line and paragraph separators). -/
def ccDot : CC := ⟨true, [], ['\n', '\r', '\u2028', '\u2029']⟩
/-- `[\s\S]`: any character at all. -/
def ccAny : CC := ⟨true, [], []⟩
def ccAlpha : CC := ⟨false, [(97, 122), (65, 90)], []⟩
/-- `[A-Z_]`. -/
def ccUpperUnd : CC := ⟨false, [(65, 90)], ['_']⟩
/-- `[\w.-]` (also written `[\w\.-]` in the source). -/
def ccWordDotDash : CC := ⟨false, [(97, 122), (65, 90), (48, 57)], ['_', '.', '-']⟩
/-- The class matching word characters, slash and dash (written with an
escaped slash in the source). -/
def ccWordSlashDash : CC := ⟨false, [(97, 122), (65, 90), (48, 57)], ['_', '/', '-']⟩
/-- `[\w-]`. -/
def ccWordDash : CC := ⟨false, [(97, 122), (65, 90), (48, 57)], ['_', '-']⟩
/-- `[^"]`. -/
def ccNotDQuote : CC := ⟨true, [], ['"']⟩
/-- `[^']`. -/
def ccNotSQuote : CC := ⟨true, [], ['\x27']⟩
/-- ``[^`]``. -/
def ccNotBQuote : CC := ⟨true, [], ['\x60']⟩
/-- `[-.\s]`, with the full JavaScript `\s` set. -/
def ccDashDotSpace : CC :=
  ⟨false, [(9, 13), (8192, 8202)],
   [' ', '\u00A0', '\u1680', '\u2028', '\u2029', '\u202F', '\u205F',
    '\u3000', '\uFEFF', '-', '.']⟩

/-- Syntax of the regular expressions appearing in the source.
`star` is greedy `*`, `lazyStar` is `*?`, `reN n r` is `r{n}`,
`wb` is `\b`, `nla` is `(?!...)`, `grp i r` is the capturing group
number `i`. -/
inductive Re where
  | eps : Re
  | cls : CC → Re
  | cat : Re → Re → Re
  | alt : Re → Re → Re
  | star : Re → Re
  | lazyStar : Re → Re
  | reN : Nat → Re → Re
  | wb : Re
  | nla : Re → Re
  | grp : Nat → Re → Re
deriving Repr

/-- A single literal character. -/
def chr (c : Char) : Re := .cls ⟨false, [], [c]⟩

def lowerC (c : Char) : Char :=
  if Nat.ble 65 c.toNat && Nat.ble c.toNat 90 then Char.ofNat (c.toNat + 32) else c

def upperC (c : Char) : Char :=
  if Nat.ble 97 c.toNat && Nat.ble c.toNat 122 then Char.ofNat (c.toNat - 32) else c

/-- A literal character under the `i` flag: either case is accepted. -/
def chrCI (c : Char) : Re :=
  if lowerC c == upperC c then chr c else .cls ⟨false, [], [lowerC c, upperC c]⟩

def cats (l : List Re) : Re := l.foldr .cat .eps

/-- Case-sensitive literal string. -/
def strRe (s : String) : Re := cats (s.data.map chr)

/-- Case-insensitive literal string (the `i` flag). -/
def strCI (s : String) : Re := cats (s.data.map chrCI)

/-- Alternation of a list, leftmost priority as in JavaScript. -/
def alts : List Re → Re
  | [] => .eps
  | [r] => r
  | r :: rs => .alt r (alts rs)

def altsCI (ws : List String) : Re := alts (ws.map strCI)
def altsCS (ws : List String) : Re := alts (ws.map strRe)

/-- Greedy `+`. -/
def plus (r : Re) : Re := .cat r (.star r)

/-- Greedy `?`. -/
def opt (r : Re) : Re := .alt r .eps

/-- `r{n,}` (greedy). -/
def repAtLeast (n : Nat) (r : Re) : Re := .cat (.reN n r) (.star r)

/-- Environment of captured groups: most recent capture first. -/
abbrev Env := List (Nat × List Char)

/-- A matching continuation: receives the character preceding the rest of
the text (for `\b`), the remaining text and the group environment. -/
abbrev MK := Option Char → List Char → Env → Option (Env × List Char)

def orElseO (a b : Option (Env × List Char)) : Option (Env × List Char) :=
  match a with
  | some x => some x
  | none => b

/-- `\b` holds at a position iff exactly one of the surrounding characters
is a word character (start/end of text count as non-word). -/
def boundaryAt (prev : Option Char) (s : List Char) : Bool :=
  let pw := match prev with | some c => isWordChar c | none => false
  let nw := match s with | c :: _ => isWordChar c | [] => false
  pw != nw

/-- Greedy repetition loop.  As in JavaScript, an iteration of the body
that consumes nothing ends the repetition, so each round consumes at least
one character and `|s| + 1` rounds of fuel always suffice. -/
def starLoop (body : Option Char → List Char → Env → MK → Option (Env × List Char)) :
    Nat → Option Char → List Char → Env → MK → Option (Env × List Char)
  | 0, prev, s, env, k => k prev s env
  | Nat.succ n, prev, s, env, k =>
    orElseO
      (body prev s env (fun prev2 s2 env2 =>
        if Nat.beq s2.length s.length then none
        else starLoop body n prev2 s2 env2 k))
      (k prev s env)

/-- Lazy repetition loop (`*?`): prefer the shortest extension first. -/
def lazyLoop (body : Option Char → List Char → Env → MK → Option (Env × List Char)) :
    Nat → Option Char → List Char → Env → MK → Option (Env × List Char)
  | 0, prev, s, env, k => k prev s env
  | Nat.succ n, prev, s, env, k =>
    orElseO
      (k prev s env)
      (body prev s env (fun prev2 s2 env2 =>
        if Nat.beq s2.length s.length then none
        else lazyLoop body n prev2 s2 env2 k))

/-- Exact repetition `r{n}`. -/
def repLoop (body : Option Char → List Char → Env → MK → Option (Env × List Char)) :
    Nat → Option Char → List Char → Env → MK → Option (Env × List Char)
  | 0, prev, s, env, k => k prev s env
  | Nat.succ n, prev, s, env, k =>
    body prev s env (fun prev2 s2 env2 => repLoop body n prev2 s2 env2 k)

/-- The backtracking matcher, in continuation-passing style.  The fuel
only bounds the depth of the regex syntax tree that is unfolded (loops are
bounded separately by the length of the text), so any fuel larger than the
height of the regex gives the exact JavaScript backtracking semantics:
alternation prefers the left branch, `*` prefers longer matches, `*?`
shorter ones. -/
def matchRe : Nat → Re → Option Char → List Char → Env → MK → Option (Env × List Char)
  | 0, _, _, _, _, _ => none
  | Nat.succ f, re, prev, s, env, k =>
    match re with
    | .eps => k prev s env
    | .cls cc =>
      match s with
      | [] => none
      | c :: cs => if cc.test c then k (some c) cs env else none
    | .cat a b =>
      matchRe f a prev s env (fun p2 s2 e2 => matchRe f b p2 s2 e2 k)
    | .alt a b =>
      orElseO (matchRe f a prev s env k) (matchRe f b prev s env k)
    | .star r => starLoop (matchRe f r) (s.length + 1) prev s env k
    | .lazyStar r => lazyLoop (matchRe f r) (s.length + 1) prev s env k
    | .reN n r => repLoop (matchRe f r) n prev s env k
    | .wb => if boundaryAt prev s then k prev s env else none
    | .nla r =>
      match matchRe f r prev s env (fun _ s2 e2 => some (e2, s2)) with
      | some _ => none
      | none => k prev s env
    | .grp i r =>
      matchRe f r prev s env (fun p2 s2 e2 =>
        k p2 s2 ((i, s.take (s.length - s2.length)) :: e2))

/-- Fuel that exceeds the syntactic height of every regex in the source. -/
def reFuel : Nat := 10000

/-- Try to match `re` at the start of `s` (with `prev` the character just
before `s`); on success return the group environment and the unconsumed
rest. -/
def tryAt (re : Re) (prev : Option Char) (s : List Char) : Option (Env × List Char) :=
  matchRe reFuel re prev s [] (fun _ s2 e2 => some (e2, s2))

/-- Leftmost match search: returns the text before the match, the matched
text, the group environment and the rest. -/
def findFrom (re : Re) : Option Char → List Char → Option (List Char × List Char × Env × List Char)
  | prev, s =>
    match tryAt re prev s with
    | some (env, rest) => some ([], s.take (s.length - rest.length), env, rest)
    | none =>
      match s with
      | [] => none
      | c :: cs =>
        match findFrom re (some c) cs with
        | some (pre, m, env, rest) => some (c :: pre, m, env, rest)
        | none => none

/-- A piece of a replacement template: literal text or `$i`. -/
inductive Tpart where
  | lit : List Char → Tpart
  | grp : Nat → Tpart
deriving Repr

def envGet (env : Env) (i : Nat) : List Char :=
  match env.find? (fun p => Nat.beq p.1 i) with
  | some p => p.2
  | none => []

def instTpl (env : Env) (t : List Tpart) : List Char :=
  t.foldr (fun p acc =>
    (match p with | .lit l => l | .grp i => envGet env i) ++ acc) []

def lastO (l : List Char) (d : Option Char) : Option Char :=
  match l.getLast? with
  | some c => some c
  | none => d

/-- JavaScript `String.replace` with the `g` flag: repeatedly find the
next match in the *original* text (replacements are never rescanned) and
substitute the instantiated template; an empty match advances by one
character.  Each round consumes at least one input character, so fuel
`|s| + 1` is always enough. -/
def replAll (re : Re) (tpl : List Tpart) : Nat → Option Char → List Char → List Char
  | 0, _, s => s
  | Nat.succ n, prev, s =>
    match findFrom re prev s with
    | none => s
    | some (pre, m, env, rest) =>
      let rep := instTpl env tpl
      match m with
      | [] =>
        match rest with
        | [] => pre ++ rep
        | c :: cs => pre ++ rep ++ c :: replAll re tpl n (some c) cs
      | _ => pre ++ rep ++ replAll re tpl n (lastO m (lastO pre prev)) rest

/-- Number of matches found by `String.match(re)` with the `g` flag
(`(s.match(re) || []).length` in the source). -/
def countAll (re : Re) : Nat → Option Char → List Char → Nat
  | 0, _, _ => 0
  | Nat.succ n, prev, s =>
    match findFrom re prev s with
    | none => 0
    | some (pre, m, _, rest) =>
      match m with
      | [] =>
        match rest with
        | [] => 1
        | c :: cs => 1 + countAll re n (some c) cs
      | _ => 1 + countAll re n (lastO m (lastO pre prev)) rest

def applyRe (re : Re) (tpl : List Tpart) (s : List Char) : List Char :=
  replAll re tpl (s.length + 1) none s

def countRe (re : Re) (s : List Char) : Nat :=
  countAll re (s.length + 1) none s

/-- `needle` is a prefix of `hay`. -/
def leadsWith : List Char → List Char → Bool
  | [], _ => true
  | _ :: _, [] => false
  | a :: as, b :: bs => a == b && leadsWith as bs

/-- Substring containment, used to state the scenario claims. -/
def containsSub : List Char → List Char → Bool
  | hay, needle =>
    if leadsWith needle hay then true
    else
      match hay with
      | [] => false
      | _ :: t => containsSub t needle

end DCP

namespace DCP

/-! ## The sanitization pipeline of `src/App.tsx` (`transformCode`, lines 130-245)

Each `replace` call of the source is one `Rule`; the rules are listed in
the order in which the source applies them.  Rules are tagged with the
category (the numbered comment blocks of the source) so that the ordering
claims can be stated.  Rule names carry the source line number. -/

/-- The rule categories of the catalog, one per numbered block of the
source's `transformCode`. -/
inductive Cat where
  | entityNouns
  | methodNames
  | endpoints
  | datastore
  | variableNames
  | typeNames
  | secretsConfig
  | contactInfo
  | comments
  | stringLiterals
  | parameters
  | sqlQueries
  | workflowVerbs
  | domainVocab
deriving DecidableEq, Repr

/-- One `synthetic.replace(pattern, replacement)` call. -/
structure Rule where
  cat : Cat
  re : Re
  tpl : List Tpart
deriving Repr

def constT (s : String) : List Tpart := [Tpart.lit s.data]

/-- A rule of shape word-boundary, case-insensitive word alternation,
word boundary, with a constant replacement. -/
def wordsRule (c : Cat) (ws : List String) (out : String) : Rule :=
  ⟨c, cats [.wb, altsCI ws, .wb], constT out⟩

/-- A rule of shape word-boundary, two adjacent case-insensitive
alternations, word boundary, with a constant replacement. -/
def compoundRule (c : Cat) (as bs : List String) (out : String) : Rule :=
  ⟨c, cats [.wb, altsCI as, altsCI bs, .wb], constT out⟩

/-- The monetary-variable rules: a whole word containing the given stem
with its first letter in either case (`[Pp]rice` and friends). -/
def stemWordRule (c : Cat) (c0 : Char) (stem : String) (out : String) : Rule :=
  ⟨c, cats [.wb, .star (.cls ccWord), .cls ⟨false, [], [lowerC c0, upperC c0]⟩,
      strRe stem, .star (.cls ccWord), .wb], constT out⟩

/-- The value of `transformations[privacyLevel]` in JavaScript, where
`transformations` is a plain object literal: either a number, or — for a
property name the object inherits from `Object.prototype`, such as
`constructor` or `toString` — a truthy function/object that is not a
number. -/
inductive JsLookup where
  | num : ℚ → JsLookup
  | protoMember : JsLookup
deriving DecidableEq, Repr

/-- The property names every plain JavaScript object literal inherits from
`Object.prototype`. -/
def objectPrototypeProps : List (List Char) :=
  [("constructor").data, ("hasOwnProperty").data, ("isPrototypeOf").data,
   ("propertyIsEnumerable").data, ("toLocaleString").data, ("toString").data,
   ("valueOf").data, ("__proto__").data, ("__defineGetter__").data,
   ("__defineSetter__").data, ("__lookupGetter__").data,
   ("__lookupSetter__").data]

/-- A JavaScript `>` comparison of the looked-up value against a number
literal: when the left operand is not a number the comparison coerces to
`NaN` and is `false`. -/
def JsLookup.gtNum : JsLookup → ℚ → Bool
  | JsLookup.num q, t => decide (t < q)
  | JsLookup.protoMember, _ => false

namespace AppMain

-- 1. Business entity obfuscation (L144-L147)
def r144 : Rule := wordsRule .entityNouns
  ["customer", "client", "user", "buyer", "purchaser", "subscriber", "member",
   "patient", "student", "employee", "vendor", "supplier"] "entity"
def r145 : Rule := wordsRule .entityNouns
  ["order", "purchase", "transaction", "sale", "payment", "invoice", "billing",
   "prescription", "enrollment", "assignment", "contract", "agreement"] "operation"
def r146 : Rule := wordsRule .entityNouns
  ["product", "item", "asset", "inventory", "catalog", "sku", "medication",
   "course", "project", "service", "resource"] "resource"
def r147 : Rule := wordsRule .entityNouns
  ["account", "profile", "record", "document", "file", "report", "chart",
   "transcript"] "record"

-- 2. Business method obfuscation (L150-L153)
def methodNouns : List String :=
  ["Customer", "User", "Order", "Product", "Payment", "Patient", "Student",
   "Employee", "Account", "Profile", "Invoice", "Transaction"]
def r150 : Rule := compoundRule .methodNames
  ["calculate", "compute", "process", "generate", "validate", "analyze"]
  ["Tax", "Price", "Rate", "Commission", "Fee", "Cost", "Profit", "Revenue",
   "Discount", "Interest", "Premium", "Salary", "Wage", "Risk", "Credit",
   "Loan", "Mortgage"] "computeValue"
def r151 : Rule := compoundRule .methodNames
  ["get", "fetch", "retrieve", "load", "find", "search"] methodNouns "getEntity"
def r152 : Rule := compoundRule .methodNames
  ["save", "store", "update", "create", "delete", "modify", "edit"] methodNouns "saveEntity"
def r153 : Rule := compoundRule .methodNames
  ["send", "email", "notify", "alert", "message"]
  ["Customer", "User", "Patient", "Student", "Employee"] "notifyEntity"

-- 3. API endpoint generalization (L156-L162)
def r156 : Rule := ⟨.endpoints,
  cats [strRe "/api/v", plus (.cls ccDigit), chr '/', plus (.cls ccWordSlashDash)],
  constT "/api/v1/endpoint"⟩
def r157 : Rule := ⟨.endpoints,
  cats [strRe "/v", plus (.cls ccDigit), chr '/', plus (.cls ccWordSlashDash)],
  constT "/v1/endpoint"⟩
def r158 : Rule := ⟨.endpoints,
  cats [strRe "http", opt (chr 's'), strRe "://", plus (.cls ccWordDotDash),
    strRe ".com", .star (.cls ccWordSlashDash)],
  constT "https://api.example.com"⟩
def r159 : Rule := ⟨.endpoints,
  cats [strRe "http", opt (chr 's'), strRe "://", plus (.cls ccWordDotDash)],
  constT "https://service.example.com"⟩
def r160 : Rule := ⟨.endpoints,
  cats [chr '/', .star (.cls ccWordSlashDash), strCI "/customers/",
    .star (.cls ccWordSlashDash)],
  constT "/endpoint/entities/id"⟩
def r161 : Rule := ⟨.endpoints,
  cats [chr '/', .star (.cls ccWordSlashDash), strCI "/orders/",
    .star (.cls ccWordSlashDash)],
  constT "/endpoint/operations/id"⟩
def r162 : Rule := ⟨.endpoints,
  cats [chr '/', .star (.cls ccWordSlashDash), strCI "/products/",
    .star (.cls ccWordSlashDash)],
  constT "/endpoint/resources/id"⟩

-- 4. Database and table names (L165-L169)
def r165 : Rule := ⟨.datastore,
  cats [.wb,
    altsCI ["customers", "users", "orders", "products", "payments", "invoices",
      "accounts", "patients", "students", "employees", "vendors", "suppliers"],
    opt (altsCI ["_table", "_db", "Table", "DB"]), .wb],
  constT "entities_table"⟩
def r166 : Rule := ⟨.datastore,
  cats [.wb, strCI "SELECT ", chr '*', strCI " FROM ", plus (.cls ccWord)],
  constT "SELECT * FROM entity_table"⟩
def r167 : Rule := ⟨.datastore,
  cats [.wb, strCI "INSERT INTO ", plus (.cls ccWord)],
  constT "INSERT INTO entity_table"⟩
def r168 : Rule := ⟨.datastore,
  cats [.wb, strCI "UPDATE ", plus (.cls ccWord), strCI " SET"],
  constT "UPDATE entity_table SET"⟩
def r169 : Rule := ⟨.datastore,
  cats [.wb, strCI "DELETE FROM ", plus (.cls ccWord)],
  constT "DELETE FROM entity_table"⟩

-- 5. Variable and field name abstraction (L172-L181)
def r172 : Rule := stemWordRule .variableNames 'p' "rice" "valueAmount"
def r173 : Rule := stemWordRule .variableNames 'r' "ate" "rateValue"
def r174 : Rule := stemWordRule .variableNames 'a' "mount" "numericValue"
def r175 : Rule := stemWordRule .variableNames 'c' "ost" "costValue"
def r176 : Rule := stemWordRule .variableNames 't' "otal" "totalValue"
def r177 : Rule := stemWordRule .variableNames 'b' "alance" "balanceValue"
def r178 : Rule := stemWordRule .variableNames 's' "alary" "compensationValue"
def r179 : Rule := stemWordRule .variableNames 'w' "age" "compensationValue"
def r180 : Rule := stemWordRule .variableNames 'r' "evenue" "incomeValue"
def r181 : Rule := stemWordRule .variableNames 'p' "rofit" "marginValue"

-- 6. Class and interface names (L184-L186)
def classNouns : List String :=
  ["Customer", "User", "Order", "Product", "Payment", "Invoice", "Patient",
   "Student", "Employee", "Account", "Profile", "Vendor", "Supplier"]
def r184 : Rule := ⟨.typeNames,
  cats [.wb, strCI "class ", .grp 1 (altsCI classNouns),
    opt (.grp 2 (.star (.cls ccWord)))],
  [Tpart.lit ("class Entity").data, Tpart.grp 2]⟩
def r185 : Rule := ⟨.typeNames,
  cats [.wb, strCI "interface ", .grp 1 (altsCI classNouns),
    opt (.grp 2 (.star (.cls ccWord)))],
  [Tpart.lit ("interface Entity").data, Tpart.grp 2]⟩
def r186 : Rule := ⟨.typeNames,
  cats [.wb, .grp 1 (altsCI classNouns),
    .grp 2 (altsCI ["Service", "Controller", "Repository", "Manager", "Handler",
      "Processor", "Validator"]), .wb],
  [Tpart.lit ("Entity").data, Tpart.grp 2]⟩

-- 7. Configuration and constants (L189-L192)
def r189 : Rule := ⟨.secretsConfig,
  cats [.wb, plus (.cls ccUpperUnd), chr '_',
    altsCS ["API_KEY", "SECRET", "PASSWORD", "TOKEN", "CREDENTIAL"], .wb],
  constT "API_KEY"⟩
def r190 : Rule := ⟨.secretsConfig,
  cats [.wb, plus (.cls ccUpperUnd), chr '_',
    altsCS ["URL", "ENDPOINT", "HOST", "DOMAIN"], .wb],
  constT "SERVICE_URL"⟩
def r191 : Rule := ⟨.secretsConfig,
  cats [.wb,
    altsCS ["STRIPE", "PAYPAL", "AMAZON", "GOOGLE", "FACEBOOK", "TWITTER",
      "LINKEDIN"], chr '_', plus (.cls ccUpperUnd), .wb],
  constT "EXTERNAL_SERVICE_KEY"⟩
def r192 : Rule := ⟨.secretsConfig,
  cats [.wb, altsCS ["DATABASE", "DB", "REDIS", "MONGO"], chr '_',
    plus (.cls ccUpperUnd), .wb],
  constT "DATABASE_CONFIG"⟩

-- 8. Email and domain patterns (L195-L197)
def r195 : Rule := ⟨.contactInfo,
  cats [.wb, plus (.cls ccWordDotDash), chr '@', plus (.cls ccWordDotDash),
    chr '.', repAtLeast 2 (.cls ccAlpha), .wb],
  constT "user@example.com"⟩
def r196 : Rule := ⟨.contactInfo,
  cats [.wb, plus (.cls ccWordDotDash), chr '.',
    altsCS ["com", "org", "net", "io", "co.uk", "edu", "gov", "mil"], .wb],
  constT "example.com"⟩
def r197 : Rule := ⟨.contactInfo,
  cats [.wb, opt (strRe "www."), plus (.cls ccWordDash), chr '.',
    altsCS ["com", "org", "net", "io"], .wb],
  constT "example.com"⟩

-- 9. Phone and numeric patterns (L200-L203)
def r200 : Rule := ⟨.contactInfo,
  cats [.wb, .reN 3 (.cls ccDigit), chr '-', .reN 3 (.cls ccDigit), chr '-',
    .reN 4 (.cls ccDigit), .wb],
  constT "123-456-7890"⟩
def r201 : Rule := ⟨.contactInfo,
  cats [.wb, chr '(', .reN 3 (.cls ccDigit), chr ')', chr ' ',
    .reN 3 (.cls ccDigit), chr '-', .reN 4 (.cls ccDigit), .wb],
  constT "(123) 456-7890"⟩
def r202 : Rule := ⟨.contactInfo,
  cats [.wb, repAtLeast 10 (.cls ccDigit), .wb],
  constT "1234567890"⟩
def r203 : Rule := ⟨.contactInfo,
  cats [.wb, .reN 4 (.cls ccDigit), chr '-', .reN 4 (.cls ccDigit), chr '-',
    .reN 4 (.cls ccDigit), chr '-', .reN 4 (.cls ccDigit), .wb],
  constT "1234-5678-9012-3456"⟩

-- 10. Comment sanitization (L206-L208)
def commentKws : List String :=
  ["business", "proprietary", "confidential", "internal", "secret", "private",
   "company", "client", "customer", "revenue", "profit", "competitive",
   "strategic"]
def r206 : Rule := ⟨.comments,
  cats [strRe "// ", .star (.cls ccDot), altsCI commentKws, .star (.cls ccDot)],
  constT "// Core application logic"⟩
def r207 : Rule := ⟨.comments,
  cats [strRe "/* ", .star (.cls ccDot), altsCI commentKws, .star (.cls ccDot),
    strRe " */"],
  constT "/* Implementation details */"⟩
def r208 : Rule := ⟨.comments,
  cats [strRe "# ", .star (.cls ccDot), altsCI commentKws, .star (.cls ccDot)],
  constT "# Core processing logic"⟩

-- 11. String literals with business content (L211-L212)
def literalKws : List String :=
  ["customer", "client", "order", "product", "payment", "invoice", "tax",
   "price", "cost", "revenue", "profit", "business", "company", "proprietary"]
def r211 : Rule := ⟨.stringLiterals,
  cats [chr '"', .star (.cls ccNotDQuote), altsCI literalKws,
    .star (.cls ccNotDQuote), chr '"'],
  constT "\"entity_operation_data\""⟩
def r212 : Rule := ⟨.stringLiterals,
  cats [chr '\x27', .star (.cls ccNotSQuote), altsCI literalKws,
    .star (.cls ccNotSQuote), chr '\x27'],
  constT "\x27entity_operation_data\x27"⟩

-- 12. Function and method parameters (L215-L216)
def paramNouns : List String :=
  ["customer", "user", "order", "product", "payment", "invoice", "patient",
   "student", "employee"]
def r215 : Rule := compoundRule .parameters paramNouns
  ["Id", "ID", "_id", "_ID"] "entityId"
def r216 : Rule := compoundRule .parameters paramNouns
  ["Data", "Info", "Details", "Record"] "entityData"

-- 13. SQL-like queries (L219-L221)
def tableNouns : List String :=
  ["customers", "users", "orders", "products", "payments", "invoices",
   "patients", "students", "employees"]
def r219 : Rule := ⟨.sqlQueries,
  cats [strCI "WHERE ", altsCI paramNouns, altsCI ["_id", "_ID", "Id", "ID"]],
  constT "WHERE entity_id"⟩
def r220 : Rule := ⟨.sqlQueries,
  cats [strCI "JOIN ", altsCI tableNouns],
  constT "JOIN entities"⟩
def r221 : Rule := ⟨.sqlQueries,
  cats [strCI "FROM ", altsCI tableNouns],
  constT "FROM entities"⟩

-- 14. Keywords applied above intensity 0.6 (L225-L228)
def r225 : Rule := compoundRule .workflowVerbs
  ["process", "handle", "manage", "execute"]
  ["Transaction", "Payment", "Order", "Purchase", "Sale", "Billing", "Invoice"]
  "processOperation"
def r226 : Rule := compoundRule .workflowVerbs
  ["validate", "verify", "check", "confirm", "authorize"]
  ["Payment", "Transaction", "Order", "Purchase", "Account", "Identity"]
  "validateEntity"
def r227 : Rule := compoundRule .workflowVerbs
  ["send", "receive", "transmit"]
  ["Payment", "Invoice", "Order", "Notification", "Email", "Message"]
  "transferData"
def r228 : Rule := compoundRule .workflowVerbs
  ["track", "monitor", "log", "audit"]
  ["Transaction", "Payment", "Order", "Activity", "Behavior"]
  "monitorActivity"

-- 15. Transformations applied above intensity 0.8 (L234-L241)
def r234 : Rule := compoundRule .domainVocab
  ["approve", "reject", "cancel", "refund", "void"]
  ["Payment", "Transaction", "Order", "Request"] "processRequest"
def r235 : Rule := compoundRule .domainVocab
  ["schedule", "deliver", "ship", "fulfill"]
  ["Order", "Product", "Service", "Appointment"] "executeOperation"
def r236 : Rule := compoundRule .domainVocab
  ["subscribe", "unsubscribe", "enroll", "unenroll"]
  ["User", "Customer", "Student", "Member"] "updateEntityStatus"
def r239 : Rule := wordsRule .domainVocab
  ["roi", "roi_", "return_on_investment", "profit_margin", "gross_margin",
   "net_margin"] "business_metric"
def r240 : Rule := wordsRule .domainVocab
  ["conversion_rate", "churn_rate", "retention_rate", "growth_rate"]
  "performance_metric"
def r241 : Rule := wordsRule .domainVocab
  ["ltv", "clv", "lifetime_value", "customer_lifetime_value"] "value_metric"

/-- The always-active rules, in source order (blocks 1-13). -/
def baseRules : List Rule :=
  [r144, r145, r146, r147, r150, r151, r152, r153, r156, r157, r158, r159,
   r160, r161, r162, r165, r166, r167, r168, r169, r172, r173, r174, r175,
   r176, r177, r178, r179, r180, r181, r184, r185, r186, r189, r190, r191,
   r192, r195, r196, r197, r200, r201, r202, r203, r206, r207, r208, r211,
   r212, r215, r216, r219, r220, r221]

/-- Block 14 of the source, guarded by `intensity > 0.6`. -/
def midRules : List Rule := [r225, r226, r227, r228]

/-- Block 15 of the source, guarded by `intensity > 0.8`. -/
def highRules : List Rule := [r234, r235, r236, r239, r240, r241]

/-- The ordered list of rules applied at a given resolved intensity:
the base rules, then the `intensity > 0.6` block, then the
`intensity > 0.8` block (both JavaScript comparisons are `false` for a
non-numeric intensity). -/
def pipeline (intensity : JsLookup) : List Rule :=
  baseRules ++ (if intensity.gtNum (6/10) then midRules else []) ++
    (if intensity.gtNum (8/10) then highRules else [])

/-- The `transformations` lookup table of the source
(`paranoid: 0.9, balanced: 0.7, performance: 0.4`). -/
def transformations : List (List Char × ℚ) :=
  [(("paranoid").data, 9/10), (("balanced").data, 7/10), (("performance").data, 4/10)]

/-- `transformations[privacyLevel] || 0.7`: an own key of the object
literal yields its number; a property name inherited from
`Object.prototype` yields that truthy member, so the `|| 0.7` default
does *not* apply; any other string yields `undefined`, which falls back
to `0.7`. -/
def intensityOf (privacyLevel : List Char) : JsLookup :=
  match transformations.find? (fun p => p.1 == privacyLevel) with
  | some p => JsLookup.num p.2
  | none =>
    if objectPrototypeProps.any (fun k => k == privacyLevel) then
      JsLookup.protoMember
    else JsLookup.num (7/10)

def applyRule (s : List Char) (r : Rule) : List Char := applyRe r.re r.tpl s

/-- `transformCode(originalCode, language, privacyLevel)` of `src/App.tsx`:
resolve the intensity, then apply every active rule, in order, to the
accumulating text.  The `language` argument is accepted and ignored, as in
the source. -/
def transformCode (originalCode : List Char) (language : List Char)
    (privacyLevel : List Char) : List Char :=
  (pipeline (intensityOf privacyLevel)).foldl applyRule originalCode

end AppMain

end DCP

namespace DCP

namespace AppMain

/-! ## The metrics calculator of `src/App.tsx`
(`calculateSecurityMetrics`, lines 247-313)

JavaScript numbers are modelled by `ℚ`; `Math.round` is
`jsRound`, rounding half towards positive infinity as in JavaScript.
`Math.random()` is modelled by an explicit parameter `rand` (the sampled
value), making the nondeterminism of the `aiParity` line visible in the
type.  A second, `Option`-valued copy of the function performs exactly the
divisions the source performs and fails iff one of them has a zero divisor
(which in JavaScript would produce `NaN`/`Infinity` instead of a number). -/

/-- `Math.round`: round half towards positive infinity. -/
def jsRound (q : ℚ) : ℤ := Int.floor (q + 1/2)

-- L253: the businessTermsPattern word alternation (with the g and i flags)
def businessTermsPattern : Re :=
  cats [.wb, altsCI
    ["customer", "client", "user", "order", "product", "payment", "invoice",
     "price", "tax", "cost", "revenue", "profit", "buyer", "purchaser",
     "subscriber", "member", "sale", "billing", "account", "profile",
     "calculate", "compute", "process", "validate", "api", "secret", "key",
     "token", "business", "company", "proprietary", "confidential", "patient",
     "student", "employee", "vendor", "supplier", "prescription", "enrollment",
     "assignment", "contract", "agreement", "medication", "course", "project",
     "service", "salary", "wage", "risk", "credit", "loan", "mortgage",
     "interest", "premium"], .wb]

-- L263: URLs in the original
def urlPattern : Re :=
  cats [strRe "http", opt (chr 's'), strRe "://", plus (.cls ccWordDotDash)]

-- L264: URLs in the synthetic text that are not one of the placeholders
def urlPatternSyn : Re :=
  cats [strRe "http", opt (chr 's'), strRe "://",
    .nla (altsCS ["api.example.com", "service.example.com", "example.com"]),
    plus (.cls ccWordDotDash)]

-- L269: API endpoints in the original
def apiPattern : Re :=
  .alt (cats [strRe "/api/v", plus (.cls ccDigit), chr '/', plus (.cls ccWordSlashDash)])
       (cats [strRe "/v", plus (.cls ccDigit), chr '/', plus (.cls ccWordSlashDash)])

-- L270: API endpoints in the synthetic text not already generalized
def apiPatternSyn : Re :=
  .alt (cats [strRe "/api/v", plus (.cls ccDigit), chr '/', .nla (strRe "endpoint"),
         plus (.cls ccWordSlashDash)])
       (cats [strRe "/v", plus (.cls ccDigit), chr '/', .nla (strRe "endpoint"),
         plus (.cls ccWordSlashDash)])

-- L275: sensitive patterns (emails, secret constants, URL constants)
def sensitivePattern : Re :=
  alts
    [cats [plus (.cls ccWordDotDash), chr '@', plus (.cls ccWordDotDash),
       chr '.', repAtLeast 2 (.cls ccAlpha)],
     cats [plus (.cls ccUpperUnd), chr '_', .grp 1 (altsCS ["API_KEY", "SECRET", "TOKEN"])],
     cats [plus (.cls ccUpperUnd), strRe "_URL"]]

-- L276: sensitive patterns in the synthetic text that are not placeholders
def sensitivePatternSyn : Re :=
  alts
    [cats [.nla (strRe "user@example.com"), plus (.cls ccWordDotDash), chr '@',
       plus (.cls ccWordDotDash), chr '.', repAtLeast 2 (.cls ccAlpha)],
     cats [.nla (.grp 1 (altsCS ["API_KEY", "SECRET_KEY", "AUTH_TOKEN", "SERVICE_URL"])),
       plus (.cls ccUpperUnd), chr '_', .grp 2 (altsCS ["API_KEY", "SECRET", "TOKEN"])],
     cats [.nla (strRe "SERVICE_URL"), plus (.cls ccUpperUnd), strRe "_URL"]]

/-- The `transformationDetails` record of the source (raw before/after
deltas per family plus the rounded overall rate). -/
structure TransformationDetails where
  businessTermsReduced : ℤ
  urlsAnonymized : ℤ
  apiEndpointsGeneralized : ℤ
  sensitiveDataObfuscated : ℤ
  overallTransformationRate : ℤ
deriving DecidableEq, Repr

/-- The score bundle returned by `calculateSecurityMetrics`. -/
structure SecurityMetrics where
  privacyScore : ℤ
  leakageRisk : ℤ
  competitiveRisk : ℤ
  aiParity : ℤ
  complianceReady : Bool
  transformationDetails : TransformationDetails
deriving DecidableEq, Repr

/-- The per-family reduction ratio of the source, one ternary expression:
`countBefore > 0 ? Math.max(0, 1 - countAfter / countBefore) : fallback`
(the fallback is `0.5` for business terms and `1` for the other three
families). -/
def familyRate (countBefore countAfter : ℕ) (fallback : ℚ) : ℚ :=
  if 0 < countBefore then
    max 0 (1 - (countAfter : ℚ) / (countBefore : ℚ))
  else fallback

/-- `calculateSecurityMetrics(original, synthetic)` of `src/App.tsx`,
with `Math.random()` passed in as `rand`.  Divisions are the total
division of `ℚ`; see `calculateSecurityMetricsChecked` for the variant
that tracks zero divisors. -/
def calculateSecurityMetrics (original synthetic : List Char) (rand : ℚ) :
    SecurityMetrics :=
  let originalLength : ℚ := (original.length : ℚ)
  let syntheticLength : ℚ := (synthetic.length : ℚ)
  let businessTermsInOriginal : ℕ := countRe businessTermsPattern original
  let businessTermsInSynthetic : ℕ := countRe businessTermsPattern synthetic
  let transformationRate : ℚ :=
    familyRate businessTermsInOriginal businessTermsInSynthetic (1/2)
  let urlsInOriginal : ℕ := countRe urlPattern original
  let urlsInSynthetic : ℕ := countRe urlPatternSyn synthetic
  let urlTransformationRate : ℚ := familyRate urlsInOriginal urlsInSynthetic 1
  let apiEndpointsInOriginal : ℕ := countRe apiPattern original
  let apiEndpointsInSynthetic : ℕ := countRe apiPatternSyn synthetic
  let apiTransformationRate : ℚ :=
    familyRate apiEndpointsInOriginal apiEndpointsInSynthetic 1
  let sensitiveInOriginal : ℕ := countRe sensitivePattern original
  let sensitiveInSynthetic : ℕ := countRe sensitivePatternSyn synthetic
  let sensitiveTransformationRate : ℚ :=
    familyRate sensitiveInOriginal sensitiveInSynthetic 1
  let avgTransformationRate : ℚ :=
    (transformationRate + urlTransformationRate + apiTransformationRate +
      sensitiveTransformationRate) / 4
  let privacyScore : ℤ := jsRound (min 98 (60 + avgTransformationRate * 38))
  let leakageRisk : ℤ := jsRound (max 2 (40 - avgTransformationRate * 38))
  let competitiveRisk : ℤ := jsRound (max 1 (30 - avgTransformationRate * 29))
  let structuralChanges : ℚ := |originalLength - syntheticLength| / originalLength
  let aiParity : ℤ := jsRound (min 99 (92 + rand * 7 - structuralChanges * 10))
  let complianceReady : Bool :=
    decide ((3 : ℚ)/10 < avgTransformationRate) ||
      (decide (0 < businessTermsInOriginal) &&
        decide ((businessTermsInSynthetic : ℚ) < (businessTermsInOriginal : ℚ) * (1/2)))
  { privacyScore := privacyScore
    leakageRisk := leakageRisk
    competitiveRisk := competitiveRisk
    aiParity := aiParity
    complianceReady := complianceReady
    transformationDetails :=
      { businessTermsReduced :=
          (businessTermsInOriginal : ℤ) - (businessTermsInSynthetic : ℤ)
        urlsAnonymized := (urlsInOriginal : ℤ) - (urlsInSynthetic : ℤ)
        apiEndpointsGeneralized :=
          (apiEndpointsInOriginal : ℤ) - (apiEndpointsInSynthetic : ℤ)
        sensitiveDataObfuscated :=
          (sensitiveInOriginal : ℤ) - (sensitiveInSynthetic : ℤ)
        overallTransformationRate := jsRound (avgTransformationRate * 100) } }

/-- Division that records a zero divisor instead of defaulting. -/
def divQ (a b : ℚ) : Option ℚ := if b = 0 then none else some (a / b)

/-- The per-family ratio with its division checked: the division is only
performed inside the `countBefore > 0` guard, exactly as in the source
ternary. -/
def familyRateChecked (countBefore countAfter : ℕ) (fallback : ℚ) : Option ℚ :=
  if 0 < countBefore then
    (divQ (countAfter : ℚ) (countBefore : ℚ)).map (fun q => max 0 (1 - q))
  else some fallback

/-- The same computation as `calculateSecurityMetrics`, but every division
the source performs is `divQ`: the result is `none` exactly when some
executed division has divisor zero (in JavaScript: a `NaN`/`Infinity`
entering the returned metrics).  The four per-family ratios only divide
inside their `countBefore > 0` guard, as in the source; the
`structuralChanges` division by `originalLength` is unguarded, as in the
source. -/
def calculateSecurityMetricsChecked (original synthetic : List Char) (rand : ℚ) :
    Option SecurityMetrics := do
  let originalLength : ℚ := (original.length : ℚ)
  let syntheticLength : ℚ := (synthetic.length : ℚ)
  let businessTermsInOriginal : ℕ := countRe businessTermsPattern original
  let businessTermsInSynthetic : ℕ := countRe businessTermsPattern synthetic
  let transformationRate : ℚ ←
    familyRateChecked businessTermsInOriginal businessTermsInSynthetic (1/2)
  let urlsInOriginal : ℕ := countRe urlPattern original
  let urlsInSynthetic : ℕ := countRe urlPatternSyn synthetic
  let urlTransformationRate : ℚ ←
    familyRateChecked urlsInOriginal urlsInSynthetic 1
  let apiEndpointsInOriginal : ℕ := countRe apiPattern original
  let apiEndpointsInSynthetic : ℕ := countRe apiPatternSyn synthetic
  let apiTransformationRate : ℚ ←
    familyRateChecked apiEndpointsInOriginal apiEndpointsInSynthetic 1
  let sensitiveInOriginal : ℕ := countRe sensitivePattern original
  let sensitiveInSynthetic : ℕ := countRe sensitivePatternSyn synthetic
  let sensitiveTransformationRate : ℚ ←
    familyRateChecked sensitiveInOriginal sensitiveInSynthetic 1
  let avgTransformationRate : ℚ ←
    divQ (transformationRate + urlTransformationRate + apiTransformationRate +
      sensitiveTransformationRate) 4
  let privacyScore : ℤ := jsRound (min 98 (60 + avgTransformationRate * 38))
  let leakageRisk : ℤ := jsRound (max 2 (40 - avgTransformationRate * 38))
  let competitiveRisk : ℤ := jsRound (max 1 (30 - avgTransformationRate * 29))
  let structuralChanges : ℚ ← divQ (|originalLength - syntheticLength|) originalLength
  let aiParity : ℤ := jsRound (min 99 (92 + rand * 7 - structuralChanges * 10))
  let complianceReady : Bool :=
    decide ((3 : ℚ)/10 < avgTransformationRate) ||
      (decide (0 < businessTermsInOriginal) &&
        decide ((businessTermsInSynthetic : ℚ) < (businessTermsInOriginal : ℚ) * (1/2)))
  some
    { privacyScore := privacyScore
      leakageRisk := leakageRisk
      competitiveRisk := competitiveRisk
      aiParity := aiParity
      complianceReady := complianceReady
      transformationDetails :=
        { businessTermsReduced :=
            (businessTermsInOriginal : ℤ) - (businessTermsInSynthetic : ℤ)
          urlsAnonymized := (urlsInOriginal : ℤ) - (urlsInSynthetic : ℤ)
          apiEndpointsGeneralized :=
            (apiEndpointsInOriginal : ℤ) - (apiEndpointsInSynthetic : ℤ)
          sensitiveDataObfuscated :=
            (sensitiveInOriginal : ℤ) - (sensitiveInSynthetic : ℤ)
          overallTransformationRate := jsRound (avgTransformationRate * 100) } }

end AppMain

end DCP

namespace DCP

/-! ## The second sanitization engine,
`transformCode` of `src/components/CodeDiffViewer.tsx` (lines 390-632).

This file contains an independent, more aggressive variant of the pipeline.
Rules here are plain pattern/template pairs, applied by `foldl` in the
order of the source arrays (a JavaScript `Map` iterates in insertion
order, and each `forEach` body is one `replace` call). -/

/-- `[-\s]`, with the full JavaScript `\s` set. -/
def ccDashSpace : CC :=
  ⟨false, [(9, 13), (8192, 8202)],
   [' ', '\u00A0', '\u1680', '\u2028', '\u2029', '\u202F', '\u205F',
    '\u3000', '\uFEFF', '-']⟩

namespace DiffViewer

/-- A pattern/replacement pair of this file. -/
abbrev Pat := Re × List Tpart

/-- A single-word entry of `businessEntityMap`, applied as
a word-bounded case-insensitive replace. -/
def entityPat (w out : String) : Pat :=
  (cats [.wb, strCI w, .wb], constT out)

def compoundPat (as bs : List String) (out : String) : Pat :=
  (cats [.wb, altsCI as, altsCI bs, .wb], constT out)

def stemPat (c0 : Char) (stem out : String) : Pat :=
  (cats [.wb, .star (.cls ccWord), .cls ⟨false, [], [lowerC c0, upperC c0]⟩,
    strRe stem, .star (.cls ccWord), .wb], constT out)

-- 1. businessEntityMap (L404-L428), in insertion order
def businessEntityRules : List Pat :=
  [entityPat "customer" "entity", entityPat "client" "entity",
   entityPat "user" "entity", entityPat "buyer" "entity",
   entityPat "purchaser" "entity", entityPat "subscriber" "entity",
   entityPat "member" "entity", entityPat "patient" "entity",
   entityPat "student" "entity", entityPat "employee" "entity",
   entityPat "vendor" "entity", entityPat "supplier" "entity",
   entityPat "partner" "entity",
   entityPat "order" "operation", entityPat "purchase" "operation",
   entityPat "transaction" "operation", entityPat "sale" "operation",
   entityPat "payment" "operation", entityPat "invoice" "operation",
   entityPat "billing" "operation", entityPat "prescription" "operation",
   entityPat "enrollment" "operation", entityPat "assignment" "operation",
   entityPat "contract" "operation", entityPat "agreement" "operation",
   entityPat "appointment" "operation", entityPat "reservation" "operation",
   entityPat "booking" "operation",
   entityPat "product" "resource", entityPat "item" "resource",
   entityPat "asset" "resource", entityPat "inventory" "resource",
   entityPat "catalog" "resource", entityPat "sku" "resource",
   entityPat "medication" "resource", entityPat "course" "resource",
   entityPat "project" "resource", entityPat "service" "resource",
   entityPat "subscription" "resource", entityPat "plan" "resource",
   entityPat "account" "record", entityPat "profile" "record",
   entityPat "document" "record", entityPat "file" "record",
   entityPat "report" "record", entityPat "chart" "record",
   entityPat "transcript" "record", entityPat "history" "record",
   entityPat "log" "record"]

-- 2. businessMethods (L439-L444)
def businessMethods : List Pat :=
  [compoundPat
    ["calculate", "compute", "process", "generate", "validate", "analyze"]
    ["Tax", "Price", "Rate", "Commission", "Fee", "Cost", "Profit", "Revenue",
     "Discount", "Interest", "Premium", "Salary", "Wage", "Risk", "Credit",
     "Loan", "Mortgage", "Billing", "Payment"] "computeBusinessValue",
   compoundPat
    ["get", "fetch", "retrieve", "load", "find", "search", "query"]
    ["Customer", "User", "Order", "Product", "Payment", "Patient", "Student",
     "Employee", "Account", "Profile", "Invoice", "Transaction", "Report",
     "Data"] "fetchEntityData",
   compoundPat
    ["save", "store", "update", "create", "delete", "modify", "edit",
     "insert", "upsert"]
    ["Customer", "User", "Order", "Product", "Payment", "Patient", "Student",
     "Employee", "Account", "Profile", "Invoice", "Transaction", "Record"]
    "persistEntityData",
   compoundPat
    ["send", "email", "notify", "alert", "message", "contact", "communicate"]
    ["Customer", "User", "Patient", "Student", "Employee", "Client", "Vendor"]
    "communicateWithEntity",
   compoundPat
    ["validate", "verify", "check", "confirm", "authorize", "authenticate"]
    ["Payment", "Transaction", "Order", "Purchase", "Account", "Identity",
     "Credentials", "Access"] "validateOperation",
   compoundPat
    ["process", "handle", "manage", "execute", "perform"]
    ["Transaction", "Payment", "Order", "Purchase", "Sale", "Billing",
     "Invoice", "Request", "Operation"] "executeBusinessProcess"]

-- 3. apiPatterns (L453-L460)
def apiPatterns : List Pat :=
  [(cats [strRe "/api/v", plus (.cls ccDigit), chr '/', plus (.cls ccWordSlashDash)],
    constT "/api/v1/generic-endpoint"),
   (cats [strRe "/v", plus (.cls ccDigit), chr '/', plus (.cls ccWordSlashDash)],
    constT "/v1/generic-endpoint"),
   (cats [strRe "http", opt (chr 's'), strRe "://", .star (.cls ccWordDotDash),
      chr '.', .grp 1 (altsCS ["com", "org", "net", "io", "co.uk"]),
      .star (.cls ccWordSlashDash)],
    constT "https://api.example.com/endpoint"),
   (cats [strRe "http", opt (chr 's'), strRe "://", plus (.cls ccWordDotDash)],
    constT "https://service.example.com"),
   (cats [chr '/', .star (.cls ccWordSlashDash), chr '/',
      .grp 1 (altsCI ["customers", "users", "clients", "members"]), chr '/',
      .star (.cls ccWordSlashDash)],
    constT "/api/entities/\x7bid\x7d"),
   (cats [chr '/', .star (.cls ccWordSlashDash), chr '/',
      .grp 1 (altsCI ["orders", "transactions", "purchases", "sales"]), chr '/',
      .star (.cls ccWordSlashDash)],
    constT "/api/operations/\x7bid\x7d"),
   (cats [chr '/', .star (.cls ccWordSlashDash), chr '/',
      .grp 1 (altsCI ["products", "items", "resources", "assets"]), chr '/',
      .star (.cls ccWordSlashDash)],
    constT "/api/resources/\x7bid\x7d"),
   (cats [chr '/', .star (.cls ccWordSlashDash), chr '/',
      .grp 1 (altsCI ["accounts", "profiles", "records"]), chr '/',
      .star (.cls ccWordSlashDash)],
    constT "/api/records/\x7bid\x7d")]

-- 4. databasePatterns (L469-L476)
def tableSuffixes : List String := ["_table", "_db", "Table", "DB", "Collection"]
def databasePatterns : List Pat :=
  [(cats [.wb, .grp 1 (altsCI ["customers", "users", "clients", "members",
      "patients", "students", "employees", "vendors", "suppliers", "partners"]),
      opt (.grp 2 (altsCI tableSuffixes)), .wb], constT "entity_table"),
   (cats [.wb, .grp 1 (altsCI ["orders", "transactions", "purchases", "sales",
      "payments", "invoices", "appointments", "reservations"]),
      opt (.grp 2 (altsCI tableSuffixes)), .wb], constT "operation_table"),
   (cats [.wb, .grp 1 (altsCI ["products", "items", "resources", "assets",
      "inventory", "catalog", "services", "subscriptions"]),
      opt (.grp 2 (altsCI tableSuffixes)), .wb], constT "resource_table"),
   (cats [.wb, strCI "SELECT ", .star (.cls ccDot), strCI " FROM ",
      plus (.cls ccWord)], constT "SELECT data FROM entity_table"),
   (cats [.wb, strCI "INSERT INTO ", plus (.cls ccWord)],
    constT "INSERT INTO entity_table"),
   (cats [.wb, strCI "UPDATE ", plus (.cls ccWord), strCI " SET"],
    constT "UPDATE entity_table SET"),
   (cats [.wb, strCI "DELETE FROM ", plus (.cls ccWord)],
    constT "DELETE FROM entity_table"),
   (cats [.wb, strCI "JOIN ", plus (.cls ccWord)], constT "JOIN entity_table")]

-- 5. variablePatterns (L486-L505)
def variablePatterns : List Pat :=
  [stemPat 'p' "rice" "valueAmount", stemPat 'r' "ate" "numericRate",
   stemPat 'a' "mount" "numericValue", stemPat 'c' "ost" "expenseValue",
   stemPat 't' "otal" "aggregateValue", stemPat 'b' "alance" "accountValue",
   stemPat 's' "alary" "compensationAmount", stemPat 'w' "age" "compensationAmount",
   stemPat 'r' "evenue" "incomeAmount", stemPat 'p' "rofit" "marginAmount",
   stemPat 'd' "iscount" "adjustmentValue", stemPat 't' "ax" "feeValue",
   stemPat 'c' "ommission" "bonusValue",
   stemPat 'i' "nvoice" "documentId", stemPat 'o' "rder" "operationId",
   stemPat 'c' "ustomer" "entityId", stemPat 'p' "roduct" "resourceId",
   stemPat 'a' "ccount" "recordId"]

-- 6. typePatterns (L514-L519)
def typeKinds : List String := ["class", "interface", "type", "enum"]
def roleSuffixes : List String :=
  ["Service", "Controller", "Repository", "Manager", "Handler", "Processor",
   "Validator", "Factory", "Builder"]
def typePatterns : List Pat :=
  [(cats [.wb, .grp 1 (altsCI typeKinds), chr ' ',
      .grp 2 (altsCI ["Customer", "User", "Client", "Member", "Patient",
        "Student", "Employee", "Vendor", "Supplier"]),
      opt (.grp 3 (.star (.cls ccWord)))],
    [Tpart.grp 1, Tpart.lit (" Entity").data, Tpart.grp 3]),
   (cats [.wb, .grp 1 (altsCI typeKinds), chr ' ',
      .grp 2 (altsCI ["Order", "Transaction", "Purchase", "Sale", "Payment",
        "Invoice", "Appointment"]),
      opt (.grp 3 (.star (.cls ccWord)))],
    [Tpart.grp 1, Tpart.lit (" Operation").data, Tpart.grp 3]),
   (cats [.wb, .grp 1 (altsCI typeKinds), chr ' ',
      .grp 2 (altsCI ["Product", "Item", "Resource", "Asset", "Service",
        "Subscription"]),
      opt (.grp 3 (.star (.cls ccWord)))],
    [Tpart.grp 1, Tpart.lit (" Resource").data, Tpart.grp 3]),
   (cats [.wb, .grp 1 (altsCI ["Customer", "User", "Client", "Member",
      "Patient", "Student", "Employee", "Vendor", "Supplier"]),
      .grp 2 (altsCI roleSuffixes), .wb],
    [Tpart.lit ("Entity").data, Tpart.grp 2]),
   (cats [.wb, .grp 1 (altsCI ["Order", "Transaction", "Purchase", "Sale",
      "Payment", "Invoice"]), .grp 2 (altsCI roleSuffixes), .wb],
    [Tpart.lit ("Operation").data, Tpart.grp 2]),
   (cats [.wb, .grp 1 (altsCI ["Product", "Item", "Resource", "Asset",
      "Service"]), .grp 2 (altsCI roleSuffixes), .wb],
    [Tpart.lit ("Resource").data, Tpart.grp 2])]

-- 7. configPatterns (L528-L533)
def configPatterns : List Pat :=
  [(cats [.wb, plus (.cls ccUpperUnd), chr '_',
      .grp 1 (altsCS ["API_KEY", "SECRET", "PASSWORD", "TOKEN", "CREDENTIAL",
        "AUTH", "ACCESS_KEY", "PRIVATE_KEY"]), .wb], constT "API_CREDENTIAL"),
   (cats [.wb, plus (.cls ccUpperUnd), chr '_',
      .grp 1 (altsCS ["URL", "ENDPOINT", "HOST", "DOMAIN", "SERVER", "BASE_URL"]),
      .wb], constT "SERVICE_ENDPOINT"),
   (cats [.wb, .grp 1 (altsCS ["STRIPE", "PAYPAL", "AMAZON", "GOOGLE",
      "FACEBOOK", "TWITTER", "LINKEDIN", "SALESFORCE", "HUBSPOT", "ZENDESK"]),
      chr '_', plus (.cls ccUpperUnd), .wb], constT "EXTERNAL_SERVICE_KEY"),
   (cats [.wb, .grp 1 (altsCS ["DATABASE", "DB", "REDIS", "MONGO", "POSTGRES",
      "MYSQL", "ORACLE"]), chr '_', plus (.cls ccUpperUnd), .wb],
    constT "DATABASE_CONFIG"),
   (cats [.wb, .grp 1 (altsCS ["JWT", "OAuth", "SAML", "LDAP", "OIDC"]),
      chr '_', plus (.cls ccUpperUnd), .wb], constT "AUTH_CONFIG"),
   (cats [.wb, .star (.cls ccUpperUnd), chr '_',
      .grp 1 (altsCS ["CLIENT_ID", "CLIENT_SECRET", "APP_ID", "APP_SECRET"]),
      .wb], constT "CLIENT_CREDENTIAL")]

-- 8. contactPatterns (L542-L547)
def contactPatterns : List Pat :=
  [(cats [.wb, plus (.cls ccWordDotDash), chr '@', plus (.cls ccWordDotDash),
      chr '.', repAtLeast 2 (.cls ccAlpha), .wb], constT "user@example.com"),
   (cats [.wb, plus (.cls ccWordDotDash), chr '.',
      .grp 1 (altsCS ["com", "org", "net", "io", "co.uk", "edu", "gov", "mil",
        "app", "dev"]), .wb], constT "example.com"),
   (cats [.wb, opt (.grp 1 (strRe "www.")), plus (.cls ccWordDash), chr '.',
      .grp 2 (altsCS ["com", "org", "net", "io"]), .wb], constT "example.com"),
   (cats [.wb, opt (chr '+'), opt (chr '1'), opt (.cls ccDashDotSpace),
      opt (chr '('), .reN 3 (.cls ccDigit), opt (chr ')'),
      opt (.cls ccDashDotSpace), .reN 3 (.cls ccDigit),
      opt (.cls ccDashDotSpace), .reN 4 (.cls ccDigit), .wb],
    constT "(555) 123-4567"),
   (cats [.wb, .reN 4 (.cls ccDigit), opt (.cls ccDashSpace),
      .reN 4 (.cls ccDigit), opt (.cls ccDashSpace), .reN 4 (.cls ccDigit),
      opt (.cls ccDashSpace), .reN 4 (.cls ccDigit), .wb],
    constT "1234-5678-9012-3456"),
   (cats [.wb, .reN 3 (.cls ccDigit), chr '-', .reN 2 (.cls ccDigit), chr '-',
      .reN 4 (.cls ccDigit), .wb], constT "123-45-6789")]

-- 9. commentPatterns (L556-L560)
def commentKws : List String :=
  ["business", "proprietary", "confidential", "internal", "secret", "private",
   "company", "client", "customer", "revenue", "profit", "competitive",
   "strategic", "trade secret", "copyright", "trademark"]
def docstringKws : List String :=
  ["business", "proprietary", "confidential", "internal", "secret", "private",
   "company", "client", "customer", "revenue", "profit", "competitive",
   "strategic"]
def commentPatterns : List Pat :=
  [(cats [strRe "//", .star (.cls ccDot), altsCI commentKws, .star (.cls ccDot)],
    constT "// Core application logic"),
   (cats [strRe "/*", .lazyStar (.cls ccAny), altsCI commentKws,
      .lazyStar (.cls ccAny), strRe "*/"], constT "/* Implementation details */"),
   (cats [chr '#', .star (.cls ccDot), altsCI commentKws, .star (.cls ccDot)],
    constT "# Core processing logic"),
   (cats [strRe "\"\"\"", .lazyStar (.cls ccAny), altsCI docstringKws,
      .lazyStar (.cls ccAny), strRe "\"\"\""],
    constT "\"\"\"Generic implementation\"\"\""),
   (cats [strRe "\x27\x27\x27", .lazyStar (.cls ccAny), altsCI docstringKws,
      .lazyStar (.cls ccAny), strRe "\x27\x27\x27"],
    constT "\x27\x27\x27Generic implementation\x27\x27\x27")]

-- 10. stringPatterns (L569-L571)
def stringKws : List String :=
  ["customer", "client", "order", "product", "payment", "invoice", "tax",
   "price", "cost", "revenue", "profit", "business", "company", "proprietary",
   "confidential", "copyright", "trademark"]
def stringPatterns : List Pat :=
  [(cats [chr '"', .star (.cls ccNotDQuote), altsCI stringKws,
      .star (.cls ccNotDQuote), chr '"'], constT "\"generic_data_value\""),
   (cats [chr '\x27', .star (.cls ccNotSQuote), altsCI stringKws,
      .star (.cls ccNotSQuote), chr '\x27'],
    constT "\x27generic_data_value\x27"),
   (cats [chr '\x60', .star (.cls ccNotBQuote), altsCI stringKws,
      .star (.cls ccNotBQuote), chr '\x60'],
    constT "\x60generic_template_value\x60")]

-- 11. parameterPatterns (L580-L585)
def parameterPatterns : List Pat :=
  [compoundPat ["customer", "user", "client", "member", "patient", "student",
     "employee"] ["Id", "ID", "_id", "_ID", "Identifier"] "entityIdentifier",
   compoundPat ["customer", "user", "client", "member", "patient", "student",
     "employee"] ["Data", "Info", "Details", "Record", "Object", "Model"]
     "entityData",
   compoundPat ["order", "transaction", "purchase", "sale", "payment",
     "invoice"] ["Id", "ID", "_id", "_ID", "Number", "Num"]
     "operationIdentifier",
   compoundPat ["order", "transaction", "purchase", "sale", "payment",
     "invoice"] ["Data", "Info", "Details", "Record", "Object", "Model"]
     "operationData",
   compoundPat ["product", "item", "resource", "asset", "service"]
     ["Id", "ID", "_id", "_ID", "Code", "SKU"] "resourceIdentifier",
   compoundPat ["product", "item", "resource", "asset", "service"]
     ["Data", "Info", "Details", "Record", "Object", "Model"] "resourceData"]

-- 12. workflowPatterns (L594-L600), applied when intensity > 0.6
def workflowPatterns : List Pat :=
  [compoundPat ["approve", "reject", "cancel", "refund", "void", "authorize",
     "decline"] ["Payment", "Transaction", "Order", "Request", "Application"]
     "processBusinessRequest",
   compoundPat ["schedule", "deliver", "ship", "fulfill", "complete",
     "finalize"] ["Order", "Product", "Service", "Appointment", "Delivery"]
     "executeBusinessOperation",
   compoundPat ["subscribe", "unsubscribe", "enroll", "unenroll", "register",
     "deregister"] ["User", "Customer", "Student", "Member", "Client"]
     "updateEntityStatus",
   compoundPat ["track", "monitor", "log", "audit", "report"]
     ["Transaction", "Payment", "Order", "Activity", "Behavior", "Performance"]
     "monitorBusinessActivity",
   compoundPat ["notify", "alert", "remind", "contact"]
     ["Customer", "User", "Client", "Member", "Subscriber"]
     "communicateWithEntity"]

-- 13. aggressivePatterns (L609-L624), applied when intensity > 0.8
def wordsPat (ws : List String) (out : String) : Pat :=
  (cats [.wb, altsCI ws, .wb], constT out)
def aggressivePatterns : List Pat :=
  [wordsPat ["roi", "roi_", "return_on_investment", "profit_margin",
     "gross_margin", "net_margin", "ebitda", "ltv", "clv", "lifetime_value",
     "customer_lifetime_value", "arpu", "mrr", "arr"] "business_metric",
   wordsPat ["conversion_rate", "churn_rate", "retention_rate", "growth_rate",
     "cac", "customer_acquisition_cost", "cpa", "cost_per_acquisition"]
     "performance_metric",
   wordsPat ["engagement", "bounce_rate", "session_duration", "page_views",
     "click_through_rate", "ctr", "open_rate"] "interaction_metric",
   wordsPat ["prescription", "diagnosis", "treatment", "therapy", "medical",
     "healthcare", "hipaa", "phi", "pii"] "regulated_data",
   wordsPat ["grade", "gpa", "transcript", "enrollment", "tuition", "ferpa",
     "student_record"] "academic_data",
   wordsPat ["trading", "portfolio", "investment", "securities", "compliance",
     "finra", "sec", "aml", "kyc"] "financial_data",
   wordsPat ["lead", "prospect", "opportunity", "pipeline", "forecast",
     "quota", "territory", "commission"] "sales_data",
   wordsPat ["campaign", "segment", "persona", "funnel", "attribution",
     "cohort", "retention"] "marketing_data",
   wordsPat ["inventory", "warehouse", "fulfillment", "logistics",
     "supply_chain", "procurement"] "operations_data"]

/-- The `transformations` lookup table of this file (identical to the one
in `App.tsx`). -/
def transformations : List (List Char × ℚ) :=
  [(("paranoid").data, 9/10), (("balanced").data, 7/10), (("performance").data, 4/10)]

/-- `transformations[privacyLevel] || 0.7`, with the same
`Object.prototype` inheritance behaviour as the copy in `App.tsx`. -/
def intensityOf (privacyLevel : List Char) : JsLookup :=
  match transformations.find? (fun p => p.1 == privacyLevel) with
  | some p => JsLookup.num p.2
  | none =>
    if objectPrototypeProps.any (fun k => k == privacyLevel) then
      JsLookup.protoMember
    else JsLookup.num (7/10)

def applyPat (s : List Char) (p : Pat) : List Char := applyRe p.1 p.2 s

/-- `transformCode(originalCode, language, privacyLevel)` of
`src/components/CodeDiffViewer.tsx`: the thirteen blocks of the source,
applied in order, the last two guarded by the intensity thresholds. -/
def transformCode (originalCode : List Char) (language : List Char)
    (privacyLevel : List Char) : List Char :=
  let intensity := intensityOf privacyLevel
  let s := businessEntityRules.foldl applyPat originalCode
  let s := businessMethods.foldl applyPat s
  let s := apiPatterns.foldl applyPat s
  let s := databasePatterns.foldl applyPat s
  let s := variablePatterns.foldl applyPat s
  let s := typePatterns.foldl applyPat s
  let s := configPatterns.foldl applyPat s
  let s := contactPatterns.foldl applyPat s
  let s := commentPatterns.foldl applyPat s
  let s := stringPatterns.foldl applyPat s
  let s := parameterPatterns.foldl applyPat s
  let s := if intensity.gtNum (6/10) then workflowPatterns.foldl applyPat s else s
  let s := if intensity.gtNum (8/10) then aggressivePatterns.foldl applyPat s else s
  s

end DiffViewer

end DCP

namespace DCP

/-! ## Objects named by the claims -/

/-- The Scenario A input of the specification. -/
def scenarioA : List Char :=
  ("function getCustomerData(customerId) \x7b return fetch(\x27https://api.stripe.com/v1/customers/\x27 + customerId); \x7d").data

/-- What the pipeline actually produces from `scenarioA` at `paranoid`. -/
def scenarioASynthetic : List Char :=
  ("function getCustomerData(entityId) \x7b return fetch(\x27https://example.com\x27 + entityId); \x7d").data

/-- The Scenario B input of the specification (no sensitive vocabulary). -/
def scenarioB : List Char := ("function add(a, b) \x7b return a + b; \x7d").data

/-- A line comment naming a business metric: the witness that the rewrite
is not idempotent. -/
def roiComment : List Char := ("// roi").data

def jsLang : List Char := ("javascript").data
def tsLang : List Char := ("typescript").data
def paranoidLevel : List Char := ("paranoid").data
def balancedLevel : List Char := ("balanced").data
def performanceLevel : List Char := ("performance").data
def costWord : List Char := ("cost").data
def xWord : List Char := ("x").data
def oneA : List Char := ("a").data
def elevenAs : List Char := List.replicate 11 'a'

/-- No rule of `rules` matches anywhere in `t`. -/
def rulesClear (rules : List Rule) (t : List Char) : Bool :=
  rules.all (fun r => (findFrom r.re none t).isNone)

/-- The rule categories the spec calls broader/contextual. -/
def isBroadCat : Cat → Bool
  | Cat.contactInfo => true
  | Cat.secretsConfig => true
  | Cat.comments => true
  | Cat.stringLiterals => true
  | _ => false

/-- The rule categories the spec calls narrower/structural. -/
def isNarrowCat : Cat → Bool
  | Cat.entityNouns => true
  | Cat.typeNames => true
  | _ => false

/-- Every rule satisfying `first` occurs strictly before every rule
satisfying `second` in the list. -/
def eachBefore (first second : Cat → Bool) (rules : List Rule) : Bool :=
  rules.enum.all fun p =>
    !(first p.2.cat) ||
      (rules.enum.all fun q => !(second q.2.cat) || Nat.blt p.1 q.1)

/-- The categories active at a numeric intensity, with multiplicity. -/
def activeCats (i : ℚ) : List Cat :=
  (AppMain.pipeline (JsLookup.num i)).map Rule.cat

end DCP

namespace DCP

/-! ## Theorems

First general lemmas about the engine and the score arithmetic, then one
theorem (with witness or counterexample where applicable) per claim. -/

set_option maxRecDepth 200000
set_option maxHeartbeats 1600000

/-- A `replace` whose pattern matches nowhere returns its input. -/
theorem replAll_no_match (re : Re) (tpl : List Tpart) (n : Nat) (prev : Option Char)
    (s : List Char) (h : findFrom re prev s = none) : replAll re tpl n prev s = s := by
  cases n with
  | zero => rfl
  | succ m => simp [replAll, h]

/-- A pipeline none of whose rules matches the text leaves it unchanged. -/
theorem foldl_applyRule_id (rules : List Rule) (t : List Char)
    (h : rulesClear rules t = true) : rules.foldl AppMain.applyRule t = t := by
  induction rules with
  | nil => rfl
  | cons r rs ih =>
    rw [rulesClear, List.all_cons, Bool.and_eq_true] at h
    obtain ⟨h1, h2⟩ := h
    have e : AppMain.applyRule t r = t := by
      have hf : findFrom r.re none t = none := Option.isNone_iff_eq_none.mp h1
      simp only [AppMain.applyRule, applyRe]
      exact replAll_no_match _ _ _ _ _ hf
    rw [List.foldl_cons, e]
    exact ih h2

theorem divQ_of_ne (x y : ℚ) (h : y ≠ 0) : AppMain.divQ x y = some (x / y) := by
  simp [AppMain.divQ, h]

/-- The guarded per-family ratio never actually divides by zero: its
checked form always succeeds, with the value of the unchecked form. -/
theorem familyRateChecked_eq (b a : ℕ) (fb : ℚ) :
    AppMain.familyRateChecked b a fb = some (AppMain.familyRate b a fb) := by
  unfold AppMain.familyRateChecked AppMain.familyRate
  split_ifs with h
  · have hb : ((b : ℚ)) ≠ 0 := Nat.cast_ne_zero.mpr h.ne'
    rw [divQ_of_ne _ _ hb, Option.map_some']
  · rfl

theorem le_jsRound (n : ℤ) (q : ℚ) (h : (n : ℚ) ≤ q) : n ≤ AppMain.jsRound q := by
  unfold AppMain.jsRound
  exact Int.le_floor.mpr (by push_cast; linarith)

theorem jsRound_le (n : ℤ) (q : ℚ) (h : q ≤ (n : ℚ)) : AppMain.jsRound q ≤ n := by
  unfold AppMain.jsRound
  have hlt : Int.floor (q + 1/2) < n + 1 := by
    apply Int.floor_lt.mpr
    push_cast
    linarith
  omega

/-- Every per-family ratio lies in `[0, 1]` whenever the fallback does. -/
theorem familyRate_bounds (b sc : ℕ) (fb : ℚ) (h0 : 0 ≤ fb) (h1 : fb ≤ 1) :
    0 ≤ AppMain.familyRate b sc fb ∧ AppMain.familyRate b sc fb ≤ 1 := by
  unfold AppMain.familyRate
  split_ifs with h
  · refine ⟨le_max_left 0 _, ?_⟩
    have hd : (0:ℚ) ≤ (sc : ℚ) / (b : ℚ) := by positivity
    apply max_le (by norm_num)
    linarith
  · exact ⟨h0, h1⟩

/-- Bounds of the four derived scores, as functions of the per-family
ratios. -/
theorem scoreBounds (t u a se x : ℚ)
    (ht0 : 0 ≤ t) (ht1 : t ≤ 1) (hu0 : 0 ≤ u) (hu1 : u ≤ 1)
    (ha0 : 0 ≤ a) (ha1 : a ≤ 1) (hs0 : 0 ≤ se) (hs1 : se ≤ 1) :
    (0 ≤ AppMain.jsRound (min 98 (60 + (t + u + a + se) / 4 * 38)) ∧
      AppMain.jsRound (min 98 (60 + (t + u + a + se) / 4 * 38)) ≤ 100) ∧
    (0 ≤ AppMain.jsRound (max 2 (40 - (t + u + a + se) / 4 * 38)) ∧
      AppMain.jsRound (max 2 (40 - (t + u + a + se) / 4 * 38)) ≤ 100) ∧
    (0 ≤ AppMain.jsRound (max 1 (30 - (t + u + a + se) / 4 * 29)) ∧
      AppMain.jsRound (max 1 (30 - (t + u + a + se) / 4 * 29)) ≤ 100) ∧
    AppMain.jsRound (min 99 x) ≤ 99 := by
  have hA0 : 0 ≤ (t + u + a + se) / 4 := by linarith
  have hA1 : (t + u + a + se) / 4 ≤ 1 := by linarith
  refine ⟨⟨?_, ?_⟩, ⟨?_, ?_⟩, ⟨?_, ?_⟩, ?_⟩
  · apply le_jsRound
    rw [le_min_iff]
    constructor <;> push_cast <;> linarith
  · apply jsRound_le
    calc min 98 (60 + (t + u + a + se) / 4 * 38) ≤ 98 := min_le_left _ _
    _ ≤ ((100:ℤ) : ℚ) := by norm_num
  · apply le_jsRound
    calc ((0:ℤ) : ℚ) ≤ 2 := by norm_num
    _ ≤ max 2 (40 - (t + u + a + se) / 4 * 38) := le_max_left _ _
  · apply jsRound_le
    apply max_le (by norm_num)
    push_cast
    linarith
  · apply le_jsRound
    calc ((0:ℤ) : ℚ) ≤ 1 := by norm_num
    _ ≤ max 1 (30 - (t + u + a + se) / 4 * 29) := le_max_left _ _
  · apply jsRound_le
    apply max_le (by norm_num)
    push_cast
    linarith
  · apply jsRound_le
    calc min 99 x ≤ 99 := min_le_left _ _
    _ = ((99:ℤ) : ℚ) := by norm_num

/-- Claim C5 (confirmed): an input in which no rule of the active pipeline
finds a match — the formal reading of "contains no sensitive vocabulary" —
is returned unchanged by `transformCode`, for every privacy profile (the
empty input is such an input, for every profile). -/
theorem c5_no_match_identity (t lang p : List Char)
    (h : rulesClear (AppMain.pipeline (AppMain.intensityOf p)) t = true) :
    AppMain.transformCode t lang p = t := by
  unfold AppMain.transformCode
  exact foldl_applyRule_id _ _ h

/-- Claim C3 (corrected), the amended statement: re-applying the rewrite is
the identity on the already-transformed text *provided* no active rule
matches that transformed text; the unconditional claim is refuted by
`c3_counterexample`. -/
theorem c3_idempotent_on_settled (t lang p : List Char)
    (h : rulesClear (AppMain.pipeline (AppMain.intensityOf p))
        (AppMain.transformCode t lang p) = true) :
    AppMain.transformCode (AppMain.transformCode t lang p) lang p =
      AppMain.transformCode t lang p := by
  unfold AppMain.transformCode
  exact foldl_applyRule_id _ _ h

/-- Claim C6 (confirmed): `transformCode` is a pure, deterministic function
of the source text and the privacy profile — two calls with equal text and
equal profile (even with different `language` hints, which the source
ignores) return equal results.  The embedding contains no other inputs:
the only randomness in the source (`Math.random()`) sits in the metrics
calculator, not in the rewriter. -/
theorem c6_deterministic (s1 s2 lang1 lang2 p1 p2 : List Char)
    (hs : s1 = s2) (hp : p1 = p2) :
    AppMain.transformCode s1 lang1 p1 = AppMain.transformCode s2 lang2 p2 := by
  subst hs; subst hp; rfl

/-- Claim C9 (corrected), the amended statement: for every pair with a
nonempty original text no division the metrics calculator executes has a
zero divisor — in particular all four per-family `countBefore` divisions
are guarded, with fallbacks 0.5, 1, 1, 1 — and the checked computation
returns exactly the unchecked scores.  The unguarded division by
`originalLength` in the `structuralChanges` line makes the unrestricted
claim false (`c9_counterexample`). -/
theorem c9_guarded_divisions (o s : List Char) (r : ℚ) (h : o ≠ []) :
    AppMain.calculateSecurityMetricsChecked o s r =
      some (AppMain.calculateSecurityMetrics o s r) := by
  have hl : o.length ≠ 0 := fun hl => h (List.length_eq_zero.mp hl)
  have hlen : ((o.length : ℚ)) ≠ 0 := Nat.cast_ne_zero.mpr hl
  have hdl : ∀ x : ℚ, AppMain.divQ x ((o.length : ℚ)) = some (x / ((o.length : ℚ))) :=
    fun x => divQ_of_ne _ _ hlen
  have hd4 : ∀ x : ℚ, AppMain.divQ x 4 = some (x / 4) :=
    fun x => divQ_of_ne _ _ (by norm_num)
  unfold AppMain.calculateSecurityMetricsChecked AppMain.calculateSecurityMetrics
  simp only [familyRateChecked_eq, hdl, hd4, Option.bind_some, Option.some_bind,
    Option.bind_eq_bind]

/-- Claim C2 (corrected), the amended statement: for every original and
transformed text and every sampled random value, `privacyScore`,
`leakageRisk` and `competitiveRisk` lie in `[0, 100]` (indeed in `[60, 98]`,
`[2, 40]` and `[1, 30]`), and `aiParity` never exceeds 99; but `aiParity`
is *not* bounded below, and for an empty original text its computation
divides by zero (`c2_counterexample`). -/
theorem c2_bounded_scores (o s : List Char) (r : ℚ) :
    (0 ≤ (AppMain.calculateSecurityMetrics o s r).privacyScore ∧
      (AppMain.calculateSecurityMetrics o s r).privacyScore ≤ 100) ∧
    (0 ≤ (AppMain.calculateSecurityMetrics o s r).leakageRisk ∧
      (AppMain.calculateSecurityMetrics o s r).leakageRisk ≤ 100) ∧
    (0 ≤ (AppMain.calculateSecurityMetrics o s r).competitiveRisk ∧
      (AppMain.calculateSecurityMetrics o s r).competitiveRisk ≤ 100) ∧
    (AppMain.calculateSecurityMetrics o s r).aiParity ≤ 99 := by
  have hb := familyRate_bounds (countRe AppMain.businessTermsPattern o)
    (countRe AppMain.businessTermsPattern s) (1/2) (by norm_num) (by norm_num)
  have hu := familyRate_bounds (countRe AppMain.urlPattern o)
    (countRe AppMain.urlPatternSyn s) 1 (by norm_num) (by norm_num)
  have ha := familyRate_bounds (countRe AppMain.apiPattern o)
    (countRe AppMain.apiPatternSyn s) 1 (by norm_num) (by norm_num)
  have hs := familyRate_bounds (countRe AppMain.sensitivePattern o)
    (countRe AppMain.sensitivePatternSyn s) 1 (by norm_num) (by norm_num)
  simp only [AppMain.calculateSecurityMetrics]
  exact scoreBounds _ _ _ _ _ hb.1 hb.2 hu.1 hu.2 ha.1 ha.2 hs.1 hs.2

/-- Claim C7 (confirmed): the set of active rule categories grows
monotonically with the numeric intensity; in particular
performance ⊆ balanced ⊆ paranoid. -/
theorem c7_monotone_categories (a b : ℚ) (hab : a ≤ b) (c : Cat)
    (hc : c ∈ activeCats a) : c ∈ activeCats b := by
  unfold activeCats AppMain.pipeline at hc ⊢
  simp only [JsLookup.gtNum, decide_eq_true_eq] at hc ⊢
  split_ifs at hc ⊢ <;>
    simp only [List.map_append, List.mem_append, List.map_nil, List.not_mem_nil,
      or_false, false_or] at hc ⊢ <;>
    first
      | tauto
      | (exfalso; linarith)

/-- Claim C8 (corrected), the amended statement: the profile name maps to
intensity 0.9 / 0.7 / 0.4 for paranoid / balanced / performance, and an
unrecognized profile string falls back to the balanced intensity 0.7 —
*unless* it is one of the property names the `transformations` object
literal inherits from `Object.prototype` (`constructor`, `toString`, ...),
for which `transformations[p]` is a truthy non-numeric member, `|| 0.7`
does not fire, and the non-numeric intensity makes both intensity-gated
blocks inactive (the pipeline degenerates to the base rules).  The
unqualified fallback claim is refuted by `c8_counterexample`. -/
theorem c8_profile_intensity :
    AppMain.intensityOf paranoidLevel = JsLookup.num (9/10) ∧
    AppMain.intensityOf balancedLevel = JsLookup.num (7/10) ∧
    AppMain.intensityOf performanceLevel = JsLookup.num (4/10) ∧
    AppMain.pipeline JsLookup.protoMember = AppMain.baseRules ∧
    (∀ p : List Char, p ∈ objectPrototypeProps →
      AppMain.intensityOf p = JsLookup.protoMember) ∧
    ∀ p : List Char, p ≠ paranoidLevel → p ≠ balancedLevel →
      p ≠ performanceLevel → p ∉ objectPrototypeProps →
      AppMain.intensityOf p = JsLookup.num (7/10) := by
  refine ⟨rfl, rfl, rfl, by simp [AppMain.pipeline, JsLookup.gtNum], ?_, ?_⟩
  · intro p hp
    fin_cases hp <;> rfl
  · intro p h1 h2 h3 h4
    rw [paranoidLevel] at h1
    rw [balancedLevel] at h2
    rw [performanceLevel] at h3
    have e1 : ((("paranoid").data : List Char) == p) = false :=
      beq_eq_false_iff_ne.mpr (Ne.symm h1)
    have e2 : ((("balanced").data : List Char) == p) = false :=
      beq_eq_false_iff_ne.mpr (Ne.symm h2)
    have e3 : ((("performance").data : List Char) == p) = false :=
      beq_eq_false_iff_ne.mpr (Ne.symm h3)
    have e4 : (objectPrototypeProps.any (fun k => k == p)) = false := by
      by_contra hne
      have htrue : objectPrototypeProps.any (fun k => k == p) = true := by
        revert hne
        cases objectPrototypeProps.any (fun k => k == p) <;> simp
      obtain ⟨k, hk, hkp⟩ := List.any_eq_true.mp htrue
      exact h4 (by rwa [eq_of_beq hkp] at hk)
    simp [AppMain.intensityOf, AppMain.transformations, List.find?, e1, e2, e3, e4]

end DCP

namespace DCP

set_option maxRecDepth 200000
set_option maxHeartbeats 1600000

-- The arithmetic of `Rat` is `@[irreducible]` upstream; from here on we
-- unseal it so that concrete runs of the pipeline and of the metrics
-- calculator can be evaluated by `decide`.
unseal Rat.mul Rat.inv Rat.add Rat.sub

/-- Witness for C5 at the Scenario B input `function add(a, b) ...` at the
balanced profile: no rule matches, and the text comes back unchanged. -/
theorem c5_witness :
    AppMain.transformCode scenarioB jsLang balancedLevel = scenarioB :=
  c5_no_match_identity _ _ _ (by decide)

/-- Witness for the amended C3 at `// roi` under the balanced profile:
the transform leaves the comment alone, no rule matches it, and a second
application is the identity. -/
theorem c3_witness :
    AppMain.transformCode (AppMain.transformCode roiComment jsLang balancedLevel)
      jsLang balancedLevel = AppMain.transformCode roiComment jsLang balancedLevel :=
  c3_idempotent_on_settled _ _ _ (by decide)

/-- Counterexample to C3 as stated: at the paranoid profile the comment
`// roi` transforms to `// business_metric` (the domain-vocabulary rule),
and a second application rewrites that to `// Core application logic`
(the comment rule now sees the keyword `business`), so the rewrite is not
idempotent. -/
theorem c3_counterexample :
    ¬ (AppMain.transformCode (AppMain.transformCode roiComment jsLang paranoidLevel)
        jsLang paranoidLevel = AppMain.transformCode roiComment jsLang paranoidLevel) := by
  decide

/-- Witness for C6: equal text and profile give equal output even with
different language hints. -/
theorem c6_witness :
    AppMain.transformCode costWord jsLang balancedLevel =
      AppMain.transformCode costWord tsLang balancedLevel :=
  c6_deterministic _ _ _ _ _ _ rfl rfl

/-- Witness for C7: the entity-noun category active at performance
intensity 0.4 is also active at balanced intensity 0.7. -/
theorem c7_witness : Cat.entityNouns ∈ activeCats ((7:ℚ)/10) :=
  c7_monotone_categories ((4:ℚ)/10) ((7:ℚ)/10) (by norm_num) Cat.entityNouns
    (by decide)

/-- Witness for the amended C8: an unrecognized profile string that is not
an `Object.prototype` property name falls back to 0.7. -/
theorem c8_witness : AppMain.intensityOf (("enterprise").data) = JsLookup.num (7/10) :=
  c8_profile_intensity.2.2.2.2.2 _ (by decide) (by decide) (by decide) (by decide)

/-- Counterexample to C8 as stated: the unrecognized profile value
`constructor` does not fall back to the balanced intensity 0.7 — the
lookup returns the inherited, truthy `Object.prototype.constructor`, so
the intensity is not the number 0.7 and the program observably differs
from `balanced`: `processPayment` is left unchanged (the `> 0.6` block is
skipped) where `balanced` rewrites it to `processOperation`. -/
theorem c8_counterexample :
    AppMain.intensityOf (("constructor").data) ≠ JsLookup.num (7/10) ∧
    AppMain.transformCode (("processPayment").data) jsLang (("constructor").data) =
      ("processPayment").data ∧
    AppMain.transformCode (("processPayment").data) jsLang balancedLevel =
      ("processOperation").data :=
  ⟨by decide, by decide, by decide⟩

/-- Witness for the amended C9 at a nonempty original: the checked metrics
computation succeeds and agrees with the unchecked one. -/
theorem c9_witness :
    AppMain.calculateSecurityMetricsChecked xWord [] 0 =
      some (AppMain.calculateSecurityMetrics xWord [] 0) :=
  c9_guarded_divisions _ _ _ (by decide)

/-- Counterexample to C9 as stated: for an empty original text the
`structuralChanges` line divides by `originalLength = 0` (in JavaScript
`Infinity` here, since the numerator is 1), and the non-finite value flows
into the returned `aiParity`, so a division result that is not a number in
the ordinary sense does reach the returned `SecurityMetrics`. -/
theorem c9_counterexample :
    AppMain.calculateSecurityMetricsChecked [] xWord 0 = none := by decide

/-- Counterexample to C2 as stated: for the empty original text the
`aiParity` computation divides zero by zero (`NaN` in JavaScript), and for
a pair whose lengths differ strongly `aiParity` is a negative number —
either way `aiParity` is not a number in `[0, 100]`. -/
theorem c2_counterexample :
    AppMain.calculateSecurityMetricsChecked [] [] 0 = none ∧
    (AppMain.calculateSecurityMetrics oneA elevenAs 0).aiParity < 0 :=
  ⟨by decide, by decide⟩

/-- Claim C1 (corrected), the amended statement: at the paranoid profile the
Scenario A input is rewritten to
`function getCustomerData(entityId) ... fetch('https://example.com' + entityId) ...`:
the lowercase tokens `customer` and the Stripe host disappear and
`complianceReady` is true, but the capitalized `Customer` inside
`getCustomerData` survives (the method-name rule requires a word boundary
right after the suffix noun, which `Data` prevents), the URL collapses to
`https://example.com` rather than the endpoint placeholder, and
`businessTermsReduced` is 1, not at least 2 (of the input's tokens only
`api` matches the business-terms pattern). -/
theorem c1_scenario_a_results :
    AppMain.transformCode scenarioA jsLang paranoidLevel = scenarioASynthetic ∧
    containsSub scenarioASynthetic (("customer").data) = false ∧
    containsSub scenarioASynthetic (("stripe").data) = false ∧
    containsSub scenarioASynthetic (("Customer").data) = true ∧
    containsSub scenarioASynthetic (("https://example.com").data) = true ∧
    (AppMain.calculateSecurityMetrics scenarioA scenarioASynthetic
      0).transformationDetails.businessTermsReduced = 1 ∧
    (AppMain.calculateSecurityMetrics scenarioA scenarioASynthetic
      0).complianceReady = true :=
  ⟨by decide, by decide, by decide, by decide, by decide, by decide, by decide⟩

/-- Counterexample to C1 as stated: the paranoid output still contains the
substring `Customer`, and the business-terms reduction is below 2. -/
theorem c1_counterexample :
    containsSub (AppMain.transformCode scenarioA jsLang paranoidLevel)
      (("Customer").data) = true ∧
    (AppMain.calculateSecurityMetrics scenarioA
      (AppMain.transformCode scenarioA jsLang paranoidLevel)
      0).transformationDetails.businessTermsReduced < 2 :=
  ⟨by decide, by decide⟩

/-- Claim C4 (corrected), the amended statement: the fixed rule order is the
*reverse* of the claimed one — every entity/operation/resource-noun and
class/type-name rule is applied strictly before every contact-info,
secrets/config, comment and string-literal rule, at every intensity. -/
theorem c4_structural_before_contextual :
    eachBefore isNarrowCat isBroadCat
      (AppMain.pipeline (JsLookup.num ((9:ℚ)/10))) = true ∧
    eachBefore isNarrowCat isBroadCat
      (AppMain.pipeline (JsLookup.num ((7:ℚ)/10))) = true ∧
    eachBefore isNarrowCat isBroadCat
      (AppMain.pipeline (JsLookup.num ((4:ℚ)/10))) = true :=
  ⟨by decide, by decide, by decide⟩

/-- Counterexample to C4 as stated: in the full (paranoid) pipeline it is
not the case that the broader contextual categories come before the
narrower structural ones (the entity-noun rules are the very first). -/
theorem c4_counterexample :
    eachBefore isBroadCat isNarrowCat
      (AppMain.pipeline (JsLookup.num ((9:ℚ)/10))) = false := by
  decide

/-- Claim C10 (corrected), the amended statement: the repository's two
`transformCode` implementations are not equivalent; on the single word
`cost` at the balanced profile, `App.tsx` produces `costValue` while
`CodeDiffViewer.tsx` produces `expenseValue`. -/
theorem c10_engines_differ :
    AppMain.transformCode costWord jsLang balancedLevel = ("costValue").data ∧
    DiffViewer.transformCode costWord jsLang balancedLevel = ("expenseValue").data :=
  ⟨by decide, by decide⟩

/-- Counterexample to C10 as stated: the two engines disagree on `cost`. -/
theorem c10_counterexample :
    ¬ (DiffViewer.transformCode costWord jsLang balancedLevel =
        AppMain.transformCode costWord jsLang balancedLevel) := by
  decide

end DCP
